import Mathlib

/-!
Verification of the plantagotchi Flask relay (`plant_api_openai.py`).

The two request handlers `especie` and `esplanta` are shallowly embedded as
pure Lean functions.  JSON values are modelled by the inductive `JsonVal`;
Python-level primitives used by the handlers (`str.strip`, `str.lower`,
substring membership, `int(...)` conversion, dict truthiness and `dict.get`)
are modelled by executable Lean functions.  The outcome of a request is an
`Outcome`: either a `jsonify`-produced response with a status code, a
werkzeug `HTTPException` handled by the framework, or an exception escaping
the handler function.  The only external effects — Flask's body parsing and
the OpenAI chat-completion call — enter the handlers as explicit arguments,
so each handler is a function of the request data and the upstream reply.
-/

/-- A JSON value, as produced by `json.loads` / consumed by `jsonify`.
Object fields are kept in insertion order, matching Python dict order. -/
inductive JsonVal where
  | jnull : JsonVal
  | jbool (b : Bool) : JsonVal
  | jint (n : Int) : JsonVal
  | jstr (s : String) : JsonVal
  | jarr (elems : List JsonVal) : JsonVal
  | jobj (fields : List (String × JsonVal)) : JsonVal

/-- Python `dict.get`: first binding of the key, if any (our objects never
carry duplicate keys). -/
def objGet : List (String × JsonVal) → String → Option JsonVal
  | [], _ => none
  | (k, v) :: rest, key => if k = key then some v else objGet rest key

/-- Python truthiness of a JSON value (`bool(x)`). -/
def truthy : JsonVal → Bool
  | .jnull => false
  | .jbool b => b
  | .jint n => n ≠ 0
  | .jstr s => s ≠ ""
  | .jarr elems => !elems.isEmpty
  | .jobj fields => !fields.isEmpty

/-- Whitespace stripped by Python `str.strip()`. -/
def isPyWs (c : Char) : Bool :=
  c = ' ' || c = '\t' || c = '\n' || c = '\r' || c = '\x0b' || c = '\x0c'

/-- Drop leading Python whitespace from a character list. -/
def dropLeadingWs : List Char → List Char
  | [] => []
  | c :: rest => if isPyWs c then dropLeadingWs rest else c :: rest

/-- Python `str.strip()`: remove leading and trailing whitespace. -/
def pyStrip (s : String) : String :=
  String.mk ((dropLeadingWs ((dropLeadingWs s.data).reverse)).reverse)

/-- Python `str.lower()` restricted to the alphabet this service handles:
ASCII letters plus the Spanish accented vowels and eñe. -/
def pyCharLower (c : Char) : Char :=
  if 'A' ≤ c ∧ c ≤ 'Z' then Char.ofNat (c.toNat + 32)
  else if c = 'Á' then 'á'
  else if c = 'É' then 'é'
  else if c = 'Í' then 'í'
  else if c = 'Ó' then 'ó'
  else if c = 'Ú' then 'ú'
  else if c = 'Ñ' then 'ñ'
  else c

/-- Python `str.lower()` on a whole string. -/
def pyLower (s : String) : String :=
  String.mk (s.data.map pyCharLower)

/-- Does `hay` start with `needle`? -/
def matchesAt : List Char → List Char → Bool
  | [], _ => true
  | _ :: _, [] => false
  | a :: as, b :: bs => a = b && matchesAt as bs

/-- Does `needle` occur as a contiguous substring of `hay`? -/
def hasSubstr (needle : List Char) : List Char → Bool
  | [] => matchesAt needle []
  | c :: rest => matchesAt needle (c :: rest) || hasSubstr needle rest

/-- Python `needle in hay` on strings. -/
def strContains (hay needle : String) : Bool :=
  hasSubstr needle.data hay.data

/-- Numeric value of a list of decimal digits. -/
def digitsVal (cs : List Char) : Nat :=
  cs.foldl (fun a c => a * 10 + (c.toNat - 48)) 0

/-- Numeric value of a digit string (`int` on a `re` match of `\d{1,3}`). -/
def numVal (s : String) : Int :=
  (digitsVal s.data : Int)

/-- Python `int(s)` on a string: strip, optional sign, decimal digits. -/
def pyIntOfString (s : String) : Except String Int :=
  match (pyStrip s).data with
  | [] => .error "invalid literal for int() with base 10"
  | '-' :: rest =>
      if rest ≠ [] ∧ rest.all Char.isDigit then .ok (-(digitsVal rest : Int))
      else .error "invalid literal for int() with base 10"
  | '+' :: rest =>
      if rest ≠ [] ∧ rest.all Char.isDigit then .ok (digitsVal rest : Int)
      else .error "invalid literal for int() with base 10"
  | cs =>
      if cs.all Char.isDigit then .ok (digitsVal cs : Int)
      else .error "invalid literal for int() with base 10"

/-- Python `int(x)` on a JSON value: integers pass through, booleans become
0/1, digit strings are parsed, everything else raises. -/
def pyInt : JsonVal → Except String Int
  | .jint n => .ok n
  | .jbool b => .ok (if b then 1 else 0)
  | .jstr s => pyIntOfString s
  | _ => .error "int() argument must be a string or a number"

/-- Model of `re.findall(r"(\d{1,3})%?", text)`: scan left to right; each match
greedily takes up to three consecutive digits (an optional trailing `%` is
consumed but not captured, and never affects later matches since `%` is not
a digit); scanning resumes after the digits. -/
def findNumsF : Nat → List Char → List String
  | 0, _ => []
  | _ + 1, [] => []
  | fuel + 1, c :: rest =>
    if c.isDigit then
      match rest with
      | [] => [String.mk [c]]
      | c2 :: rest2 =>
        if c2.isDigit then
          match rest2 with
          | [] => [String.mk [c, c2]]
          | c3 :: rest3 =>
            if c3.isDigit then String.mk [c, c2, c3] :: findNumsF fuel rest3
            else String.mk [c, c2] :: findNumsF fuel rest2
        else String.mk [c] :: findNumsF fuel rest
    else findNumsF fuel rest

/-- Model of `re.findall(r"(\d{1,3})%?", text)` on a whole character list (the fuel
`cs.length` dominates the scan, which consumes at least one character per
step). -/
def findNums (cs : List Char) : List String :=
  findNumsF cs.length cs

/-- Outcome of one request, as observed by the HTTP client.
`json` is a response the handler built with `jsonify(...), status`;
`httpError` is a werkzeug `HTTPException` raised outside the handler's own
code and turned into a default error page by Flask (e.g. the `BadRequest`
raised by `request.get_json(force=True)` on a malformed body);
`crashed` is an exception escaping the handler function itself, which Flask
turns into a generic 500 page — not one of the documented JSON bodies. -/
inductive Outcome where
  | json (status : Nat) (body : JsonVal) : Outcome
  | httpError (status : Nat) : Outcome
  | crashed (exn : String) : Outcome

/-- Result of `request.get_json(force=True)` on the `/especie` request:
either the parsed JSON value or the `BadRequest` raised on a malformed
body. -/
inductive BodyParse where
  | ok (v : JsonVal) : BodyParse
  | badJson : BodyParse

/-- The OpenAI reply for `/especie`, as the handler sees it.
`failure` means `ChatCompletion.create` raised (detail is `str(e)`);
`funcCall raw parsed` means the choice carried a `function_call`, whose
`arguments` string is `raw` and whose `json.loads` outcome is `parsed`;
`text` means no function call, only plain `content`. -/
inductive ModelReply where
  | failure (detail : String) : ModelReply
  | funcCall (raw : String) (parsed : Except String JsonVal) : ModelReply
  | text (content : String) : ModelReply

/-- The OpenAI reply for `/esplanta`: either an exception or plain text. -/
inductive TextReply where
  | failure (detail : String) : TextReply
  | text (content : String) : TextReply

/-- The `/esplanta` request's four input sources. `jsonBody` is the result
of `request.get_json(silent=True)` (none on parse failure or wrong content
type); `rawParse` models `json.loads(request.data.decode('utf-8'))` — none
when the raw body is empty, otherwise the parse outcome; `form` and
`queryArgs` are `request.form.get('pregunta')` and
`request.args.get('pregunta')`. -/
structure EsplantaRequest where
  jsonBody : Option JsonVal
  rawParse : Option (Except String JsonVal)
  form : Option String
  queryArgs : Option String

/-- Body of `jsonify({"error": "missing 'especie' in JSON body"})`. -/
def missingEspecie : JsonVal :=
  .jobj [("error", .jstr "missing 'especie' in JSON body")]

/-- Body of `jsonify({"error": "missing 'pregunta' in JSON body"})`. -/
def missingPregunta : JsonVal :=
  .jobj [("error", .jstr "missing 'pregunta' in JSON body")]

/-- Body of `jsonify({"error": "openai request failed", "detail": str(e)})`. -/
def upstreamFail (detail : String) : JsonVal :=
  .jobj [("error", .jstr "openai request failed"), ("detail", .jstr detail)]

/-- Body of `jsonify({"error": "failed parsing model arguments", "detail": str(e),
"raw": func_args})`. -/
def parseFail (detail raw : String) : JsonVal :=
  .jobj [("error", .jstr "failed parsing model arguments"),
         ("detail", .jstr detail), ("raw", .jstr raw)]

/-- Model of `if ht < 0 or ht > 100: ht = max(0, min(100, ht if ht != -1 else 50))`
from the structured path of `/especie`. -/
def clampH (n : Int) : Int :=
  if n < 0 ∨ 100 < n then max 0 (min 100 (if n = -1 then 50 else n)) else n

/-- Model of `tipo = 'interior' if tipo not in ['interior','exterior'] else tipo`,
applied to the raw JSON value of `args.get('tipo', '')` (a non-string value
equals neither literal, so it becomes `'interior'`). -/
def tipoNorm : JsonVal → String
  | .jstr s => if s = "interior" ∨ s = "exterior" then s else "interior"
  | _ => "interior"

/-- Lines 70–83 of `/especie`: extraction, clamping and emission of the
structured fields once `args` is a dict.  `int(...)` is applied to each
humidity field with default `-1`; a conversion failure raises inside the
inner `try` and is answered with the 500 parse-failure body.  Python
evaluates `humedad_tierra` first, so its failure wins. -/
def especieArgs (raw : String) (fields : List (String × JsonVal)) : Outcome :=
  match pyInt ((objGet fields "humedad_tierra").getD (.jint (-1))),
        pyInt ((objGet fields "humedad_ambiente").getD (.jint (-1))) with
  | .error e, _ => .json 500 (parseFail e raw)
  | .ok _, .error e => .json 500 (parseFail e raw)
  | .ok ht, .ok ha =>
      .json 200 (.jobj
        [("humedad_tierra", .jint (clampH ht)),
         ("humedad_ambiente", .jint (clampH ha)),
         ("tipo", .jstr (tipoNorm ((objGet fields "tipo").getD (.jstr ""))))])

/-- Lines 64–85 of `/especie`: the structured path.  `raw` is the
`arguments` string of the function call, `parsed` its `json.loads` outcome.
Every exception inside the inner `try` (including `args.get` on a non-dict
and `int()` on a non-numeric value) is caught and answered with the 500
parse-failure body carrying the raw payload. -/
def especieStructured (raw : String) (parsed : Except String JsonVal) : Outcome :=
  match parsed with
  | .error e => .json 500 (parseFail e raw)
  | .ok (.jobj fields) => especieArgs raw fields
  | .ok _ =>
      .json 500 (parseFail "AttributeError: object has no attribute get" raw)

/-- Lines 87–96 of `/especie`: the text-fallback body.  The first two
regex matches become the humidity values (no clamping on this path),
defaulting to 50; `tipo` is always `'interior'`; the note and the raw text
are attached. -/
def especieFallback (content : String) : JsonVal :=
  .jobj [("humedad_tierra", .jint (((findNums content.data).get? 0).elim 50 numVal)),
         ("humedad_ambiente", .jint (((findNums content.data).get? 1).elim 50 numVal)),
         ("tipo", .jstr "interior"),
         ("note", .jstr "extracted from text fallback"),
         ("raw_text", .jstr content)]

/-- Model of `(data.get('especie') or '')`: a missing key or a falsy value becomes
the empty string, any truthy value passes through unchanged. -/
def pyOrEmpty : Option JsonVal → JsonVal
  | none => .jstr ""
  | some v => if truthy v then v else .jstr ""

/-- Python `.strip()` applied to a JSON value: succeeds only on strings, any other
receiver raises `AttributeError`. -/
def pyStripVal : JsonVal → Except String String
  | .jstr s => .ok (pyStrip s)
  | _ => .error "AttributeError: object has no attribute strip"

/-- Model of `(data.get('especie') or '').strip()`: resolution of the required field
on `/especie`.  On a non-object body `data.get` itself raises
`AttributeError` — before the `try` block, so it is not caught. -/
def especieResolve : JsonVal → Except String String
  | .jobj fields => pyStripVal (pyOrEmpty (objGet fields "especie"))
  | _ => .error "AttributeError: object has no attribute get"

/-- The `/especie` handler (lines 40–99).  Returns the outcome and whether
the OpenAI client was invoked. -/
def especie (body : BodyParse) (reply : ModelReply) : Outcome × Bool :=
  match body with
  | .badJson => (.httpError 400, false)
  | .ok v =>
    match especieResolve v with
    | .error e => (.crashed e, false)
    | .ok s =>
      if s = "" then (.json 400 missingEspecie, false)
      else
        match reply with
        | .failure d => (.json 502 (upstreamFail d), true)
        | .funcCall raw parsed => (especieStructured raw parsed, true)
        | .text content => (.json 200 (especieFallback content), true)

/-- Lines 104–112 of `/esplanta`: obtain `data` as a dict.  A silent JSON
parse is tried first; on `None`, the raw body is decoded and parsed inside
a bare `except` that falls back to `{}`; finally a non-dict is replaced by
`{}`. -/
def resolveData (r : EsplantaRequest) : List (String × JsonVal) :=
  match (match r.jsonBody with
         | some v => v
         | none =>
           match r.rawParse with
           | none => .jobj []
           | some (.ok v) => v
           | some (.error _) => .jobj []) with
  | .jobj fields => fields
  | _ => []

/-- A Python `x or y or ... or ''` chain: the first truthy value, else
`''`. -/
def firstTruthy : List JsonVal → JsonVal
  | [] => .jstr ""
  | v :: rest => if truthy v then v else firstTruthy rest

/-- Embed an optional JSON value (`dict.get` result) as the Python value
seen by the `or` chain (`None` when absent). -/
def optVal : Option JsonVal → JsonVal
  | none => .jnull
  | some v => v

/-- Embed an optional string (`form.get`/`args.get` result) likewise. -/
def optStr : Option String → JsonVal
  | none => .jnull
  | some s => .jstr s

/-- Lines 113–118 of `/esplanta`:
`(data.get('pregunta') or request.form.get('pregunta') or
request.args.get('pregunta') or '').strip()` — note the `.strip()` is
applied only to the value the `or` chain selected, and raises on a truthy
non-string body value. -/
def esplantaResolve (r : EsplantaRequest) : Except String String :=
  pyStripVal (firstTruthy
    [optVal (objGet (resolveData r) "pregunta"), optStr r.form, optStr r.queryArgs])

/-- Lines 132–138 of `/esplanta`: classification of the model text.  The
text is stripped then lowered; the affirmative substrings are checked
before `'no'`; when nothing matches, the processed text itself is attached
under `raw`. -/
def classify (content : String) : JsonVal :=
  if strContains (pyLower (pyStrip content)) "sí"
      || strContains (pyLower (pyStrip content)) "si"
      || strContains (pyLower (pyStrip content)) "yes" then
    .jobj [("es_planta", .jbool true)]
  else if strContains (pyLower (pyStrip content)) "no" then
    .jobj [("es_planta", .jbool false)]
  else
    .jobj [("es_planta", .jbool false), ("raw", .jstr (pyLower (pyStrip content)))]

/-- The `/esplanta` handler (lines 101–140).  Returns the outcome and
whether the OpenAI client was invoked. -/
def esplanta (r : EsplantaRequest) (reply : TextReply) : Outcome × Bool :=
  match esplantaResolve r with
  | .error e => (.crashed e, false)
  | .ok s =>
    if s = "" then (.json 400 missingPregunta, false)
    else
      match reply with
      | .failure d => (.json 502 (upstreamFail d), true)
      | .text content => (.json 200 (classify content), true)

/-- An outcome is one of the documented JSON responses: a body built by the
handler with one of the four documented status codes. -/
def documented : Outcome → Bool
  | .json status _ => status = 200 || status = 400 || status = 500 || status = 502
  | _ => false

example : pyStrip "  hola  " = "hola" := by decide
example : pyLower "MAYBE Sí" = "maybe sí" := by decide
example : strContains "sí claro" "sí" = true := by decide
example : strContains "maybe" "no" = false := by decide
example : findNums "Needs about 40% soil and 60% ambient".data = ["40", "60"] := rfl
example : findNums "1234".data = ["123", "4"] := rfl
example : findNums "999".data = ["999"] := rfl
example : pyIntOfString " 42 " = .ok 42 := rfl
example : pyInt (.jstr "150") = .ok 150 := rfl

example :
    especie (.ok (.jobj [("especie", .jstr " rosa ")]))
      (.funcCall "argumentos" (.ok (.jobj [("humedad_tierra", .jint 30),
        ("humedad_ambiente", .jint 70), ("tipo", .jstr "exterior")])))
      = (.json 200 (.jobj [("humedad_tierra", .jint 30),
          ("humedad_ambiente", .jint 70), ("tipo", .jstr "exterior")]), true) := rfl

example :
    especie (.ok (.jobj [("especie", .jstr "rosa")])) (.text "999")
      = (.json 200 (.jobj [("humedad_tierra", .jint 999),
          ("humedad_ambiente", .jint 50), ("tipo", .jstr "interior"),
          ("note", .jstr "extracted from text fallback"),
          ("raw_text", .jstr "999")]), true) := rfl

example :
    especie (.ok (.jarr [.jint 1, .jint 2])) (.text "x")
      = (.crashed "AttributeError: object has no attribute get", false) := rfl

example :
    esplanta ⟨some (.jobj [("pregunta", .jstr " ")]), none, none, some "hola"⟩
      (.text "sí") = (.json 400 missingPregunta, false) := rfl

example :
    esplanta ⟨some (.jobj [("pregunta", .jstr "¿sirve?")]), none, none, none⟩
      (.text "maybe")
      = (.json 200 (.jobj [("es_planta", .jbool false), ("raw", .jstr "maybe")]),
         true) := rfl

/-- The clamp always lands in `[0, 100]`. -/
theorem clampH_bounds (n : Int) : 0 ≤ clampH n ∧ clampH n ≤ 100 := by
  unfold clampH
  split
  · split <;> omega
  · omega

/-- The sentinel `-1` is clamped to exactly 50. -/
theorem clampH_neg_one : clampH (-1) = 50 := by decide

/-- An in-range value passes through the clamp unchanged. -/
theorem clampH_of_mem (n : Int) (h0 : 0 ≤ n) (h1 : n ≤ 100) : clampH n = n := by
  unfold clampH
  split
  · omega
  · rfl

/-- Every negative value other than the sentinel is clamped to 0. -/
theorem clampH_neg (n : Int) (h0 : n < 0) (h1 : n ≠ -1) : clampH n = 0 := by
  unfold clampH
  rw [if_pos (Or.inl h0), if_neg h1]
  omega

/-- A value above 100 is clamped to 100. -/
theorem clampH_big (n : Int) (h0 : 100 < n) : clampH n = 100 := by
  unfold clampH
  split
  · split <;> omega
  · omega

/-- The emitted `tipo` is always one of the two literals. -/
theorem tipoNorm_valid (v : JsonVal) :
    tipoNorm v = "interior" ∨ tipoNorm v = "exterior" := by
  cases v
  case jstr s =>
    simp only [tipoNorm]
    by_cases h : s = "interior" ∨ s = "exterior"
    · rw [if_pos h]; exact h
    · rw [if_neg h]; exact Or.inl rfl
  all_goals exact Or.inl rfl

/-- A `tipo` equal to neither literal is forced to `"interior"`. -/
theorem tipoNorm_default (v : JsonVal) (h1 : v ≠ JsonVal.jstr "interior")
    (h2 : v ≠ JsonVal.jstr "exterior") : tipoNorm v = "interior" := by
  cases v <;> simp only [tipoNorm]
  rename_i s
  rw [if_neg]
  rintro (rfl | rfl)
  · exact h1 rfl
  · exact h2 rfl

/-- A `tipo` equal to one of the literals is kept. -/
theorem tipoNorm_keep (t : String) (h : t = "interior" ∨ t = "exterior") :
    tipoNorm (.jstr t) = t := by
  simp only [tipoNorm]
  exact if_pos h

/-- Stripping the empty string yields the empty string. -/
theorem pyStrip_empty : pyStrip "" = "" := rfl

/-- The field-extraction step always answers with a documented JSON
response (status 200 or 500). -/
theorem especieArgs_documented (raw : String) (fields : List (String × JsonVal)) :
    documented (especieArgs raw fields) = true := by
  simp only [especieArgs]
  cases pyInt ((objGet fields "humedad_tierra").getD (.jint (-1))) <;>
    cases pyInt ((objGet fields "humedad_ambiente").getD (.jint (-1))) <;> rfl

/-- The structured path always answers with a documented JSON response
(status 200 or 500). -/
theorem especieStructured_documented (raw : String) (p : Except String JsonVal) :
    documented (especieStructured raw p) = true := by
  rcases p with e | v
  · rfl
  · cases v
    case jobj fields => exact especieArgs_documented raw fields
    all_goals rfl

/-- C1 (counterexample): the claim says humidity values in the emitted 200
response lie in [0,100] on either path; but on the text-fallback path the
extracted numbers are emitted without clamping, so model text `"999"`
produces `humedad_tierra = 999`, outside [0,100]. -/
theorem c1_fallback_unclamped :
    (especie (.ok (.jobj [("especie", .jstr "rosa")])) (.text "999")).1
      = .json 200 (.jobj [("humedad_tierra", .jint 999),
          ("humedad_ambiente", .jint 50), ("tipo", .jstr "interior"),
          ("note", .jstr "extracted from text fallback"),
          ("raw_text", .jstr "999")])
    ∧ ¬ ((999 : Int) ≤ 100) :=
  ⟨rfl, by decide⟩

/-- C1 (amended): on the STRUCTURED path of `/especie` every integer
humidity value is clamped into [0,100], the sentinel `-1` (also the default
for a missing field) yields exactly 50, and a `tipo` that is neither
`"interior"` nor `"exterior"` is emitted as `"interior"`; the text-fallback
path emits the extracted values without clamping. -/
theorem c1_structured_clamped (a b : Int) (v : JsonVal) (raw : String)
    (h1 : v ≠ JsonVal.jstr "interior") (h2 : v ≠ JsonVal.jstr "exterior") :
    especieStructured raw (.ok (.jobj [("humedad_tierra", .jint a),
        ("humedad_ambiente", .jint b), ("tipo", v)]))
      = .json 200 (.jobj [("humedad_tierra", .jint (clampH a)),
          ("humedad_ambiente", .jint (clampH b)), ("tipo", .jstr "interior")])
    ∧ 0 ≤ clampH a ∧ clampH a ≤ 100 ∧ 0 ≤ clampH b ∧ clampH b ≤ 100
    ∧ clampH (-1) = 50 := by
  refine ⟨?_, (clampH_bounds a).1, (clampH_bounds a).2,
          (clampH_bounds b).1, (clampH_bounds b).2, clampH_neg_one⟩
  simp [especieStructured, especieArgs, objGet, pyInt, tipoNorm_default v h1 h2]

/-- C1 (witness): the amended theorem applied at a payload with an
over-range soil value, an under-range ambient value and `tipo = "patio"`. -/
theorem c1_structured_clamped_witness :
    especieStructured "r" (.ok (.jobj [("humedad_tierra", .jint 150),
        ("humedad_ambiente", .jint (-7)), ("tipo", .jstr "patio")]))
      = .json 200 (.jobj [("humedad_tierra", .jint 100),
          ("humedad_ambiente", .jint 0), ("tipo", .jstr "interior")]) :=
  (c1_structured_clamped 150 (-7) (.jstr "patio") "r" (by simp) (by simp)).1

/-- C2 (counterexample): the claim says a blank (whitespace-only) value in
an earlier source lets a later non-blank source win; but the Python `or`
chain picks the first TRUTHY value, and `" "` is truthy, so a
whitespace-only `pregunta` in the JSON body shadows the non-blank query
parameter `"hola"` and the request fails with the 400 ValidationError. -/
theorem c2_blank_shadows :
    esplanta ⟨some (.jobj [("pregunta", .jstr " ")]), none, none, some "hola"⟩
      (.text "sí") = (.json 400 missingPregunta, false) :=
  rfl

/-- C2 (amended): among the four sources — parsed-JSON-body field,
raw-body decode (consulted only when the silent parse yields nothing),
form field, query parameter — the first NON-EMPTY (Python truthy) value of
`pregunta` wins and only the selected value is trimmed.  In order: a
non-empty body string wins regardless of form and query; when the body
value is absent or falsy, a non-empty form field wins regardless of the
query; when body and form yield nothing, a non-empty query parameter wins;
when every source is absent or empty, resolution yields the empty string
and hence the 400 ValidationError.  A whitespace-only value in an earlier
source is truthy, so it shadows later non-blank sources and, stripping to
the empty string, produces the 400 ValidationError without invoking the
model. -/
theorem c2_first_truthy_wins :
    (∀ (r : EsplantaRequest) (s : String),
      objGet (resolveData r) "pregunta" = some (.jstr s) → s ≠ "" →
      esplantaResolve r = .ok (pyStrip s))
    ∧ (∀ (r : EsplantaRequest) (f : String),
      truthy (optVal (objGet (resolveData r) "pregunta")) = false →
      r.form = some f → f ≠ "" →
      esplantaResolve r = .ok (pyStrip f))
    ∧ (∀ (r : EsplantaRequest) (q : String),
      truthy (optVal (objGet (resolveData r) "pregunta")) = false →
      (r.form = none ∨ r.form = some "") →
      r.queryArgs = some q → q ≠ "" →
      esplantaResolve r = .ok (pyStrip q))
    ∧ (∀ r : EsplantaRequest,
      truthy (optVal (objGet (resolveData r) "pregunta")) = false →
      (r.form = none ∨ r.form = some "") →
      (r.queryArgs = none ∨ r.queryArgs = some "") →
      esplantaResolve r = .ok "")
    ∧ (∀ (fields : List (String × JsonVal)) (rp : Option (Except String JsonVal))
        (form qa : Option String),
      resolveData ⟨some (.jobj fields), rp, form, qa⟩ = fields)
    ∧ (∀ (fields : List (String × JsonVal)) (form qa : Option String),
      resolveData ⟨none, some (.ok (.jobj fields)), form, qa⟩ = fields)
    ∧ (∀ (e : String) (form qa : Option String),
      resolveData ⟨none, some (.error e), form, qa⟩ = [])
    ∧ (∀ (r : EsplantaRequest) (s : String) (reply : TextReply),
      objGet (resolveData r) "pregunta" = some (.jstr s) → s ≠ "" →
      pyStrip s = "" →
      esplanta r reply = (.json 400 missingPregunta, false))
    ∧ (∀ (r : EsplantaRequest) (reply : TextReply),
      esplantaResolve r = .ok "" →
      esplanta r reply = (.json 400 missingPregunta, false)) := by
  refine ⟨?_, ?_, ?_, ?_, ?_, ?_, ?_, ?_, ?_⟩
  · intro r s h hs
    simp [esplantaResolve, h, optVal, firstTruthy, truthy, hs, pyStripVal]
  · intro r f hb hf hfne
    simp only [esplantaResolve, firstTruthy, hf, optStr]
    rw [hb]
    simp [truthy, hfne, pyStripVal]
  · intro r q hb hform hq hqne
    rcases hform with h | h <;>
      (simp only [esplantaResolve, firstTruthy, h, hq, optStr]
       rw [hb]
       simp [truthy, hqne, pyStripVal])
  · intro r hb hform hquery
    rcases hform with h | h <;> rcases hquery with h2 | h2 <;>
      (simp only [esplantaResolve, firstTruthy, h, h2, optStr]
       rw [hb]
       simp [truthy, pyStripVal, pyStrip_empty])
  · intro fields rp form qa
    rfl
  · intro fields form qa
    rfl
  · intro e form qa
    rfl
  · intro r s reply h hs hblank
    have hres : esplantaResolve r = .ok (pyStrip s) := by
      simp [esplantaResolve, h, optVal, firstTruthy, truthy, hs, pyStripVal]
    rw [hblank] at hres
    simp [esplanta, hres]
  · intro r reply h
    simp [esplanta, h]

/-- C2 (witness): the amended theorem's third part applied concretely —
the body parses to an object without `pregunta` and the form field is
empty, so the non-blank query parameter wins and is trimmed. -/
theorem c2_first_truthy_wins_witness :
    esplantaResolve ⟨some (.jobj []), none, some "", some " hola "⟩
      = .ok "hola" :=
  c2_first_truthy_wins.2.2.1 ⟨some (.jobj []), none, some "", some " hola "⟩
    " hola " rfl (Or.inr rfl) rfl (by decide)

/-- C3 (counterexample): the claim says every unexpected failure is caught
at the handler boundary and mapped to a documented 400/502/500 response —
naming a `/especie` body that is valid JSON but not an object as an
example.  Exactly that input makes `data.get('especie')` raise
`AttributeError` BEFORE the `try` block: the exception escapes the handler
and no documented response is produced. -/
theorem c3_nonobject_escapes :
    (especie (.ok (.jarr [.jint 1, .jint 2])) (.text "texto")).1
      = .crashed "AttributeError: object has no attribute get"
    ∧ documented (especie (.ok (.jarr [.jint 1, .jint 2])) (.text "texto")).1
      = false :=
  ⟨rfl, rfl⟩

/-- C3 (amended): once input resolution has produced the required field,
every failure (upstream error, malformed structured payload, non-dict
arguments, unparsable text) is caught and mapped to a documented
200/400/500/502 JSON response; but a failure during input resolution
itself — e.g. a valid-JSON non-object `/especie` body, or a truthy
non-string `pregunta` value — escapes the handler as an unhandled
exception. -/
theorem c3_documented_after_resolution :
    (∀ (v : JsonVal) (s : String) (reply : ModelReply),
      especieResolve v = .ok s → documented (especie (.ok v) reply).1 = true)
    ∧ (∀ (r : EsplantaRequest) (s : String) (reply : TextReply),
      esplantaResolve r = .ok s → documented (esplanta r reply).1 = true) := by
  constructor
  · intro v s reply h
    simp only [especie, h]
    by_cases hs : s = ""
    · simp [hs]; rfl
    · rw [if_neg hs]
      cases reply with
      | failure d => rfl
      | funcCall raw parsed => exact especieStructured_documented raw parsed
      | text content => rfl
  · intro r s reply h
    simp only [esplanta, h]
    by_cases hs : s = ""
    · simp [hs]; rfl
    · rw [if_neg hs]
      cases reply <;> rfl

/-- C3 (witness): the amended theorem applied to a well-formed `/especie`
request answered by plain model text. -/
theorem c3_documented_after_resolution_witness :
    documented (especie (.ok (.jobj [("especie", .jstr "ficus")]))
      (.text "unos 40%")).1 = true :=
  c3_documented_after_resolution.1 (.jobj [("especie", .jstr "ficus")])
    "ficus" (.text "unos 40%") rfl

/-- C4: for every model reply on `/esplanta`, after stripping and
lower-casing: a text containing `"sí"`, `"si"` or `"yes"` yields
`{"es_planta": true}`; otherwise a text containing `"no"` yields
`{"es_planta": false}`; otherwise `{"es_planta": false}` with the
(processed) text attached under `"raw"`.  The affirmative check runs
first, so `"si no"` yields true; and through the full handler `"sí"`,
`"no"` and `"maybe"` produce exactly the documented 200 bodies. -/
theorem c4_question_classification :
    (∀ t : String,
      (strContains (pyLower (pyStrip t)) "sí" || strContains (pyLower (pyStrip t)) "si"
        || strContains (pyLower (pyStrip t)) "yes") = true →
      classify t = .jobj [("es_planta", .jbool true)])
    ∧ (∀ t : String,
      (strContains (pyLower (pyStrip t)) "sí" || strContains (pyLower (pyStrip t)) "si"
        || strContains (pyLower (pyStrip t)) "yes") = false →
      strContains (pyLower (pyStrip t)) "no" = true →
      classify t = .jobj [("es_planta", .jbool false)])
    ∧ (∀ t : String,
      (strContains (pyLower (pyStrip t)) "sí" || strContains (pyLower (pyStrip t)) "si"
        || strContains (pyLower (pyStrip t)) "yes") = false →
      strContains (pyLower (pyStrip t)) "no" = false →
      classify t = .jobj [("es_planta", .jbool false),
        ("raw", .jstr (pyLower (pyStrip t)))])
    ∧ classify "si no" = .jobj [("es_planta", .jbool true)]
    ∧ esplanta ⟨some (.jobj [("pregunta", .jstr "¿es una planta?")]), none, none, none⟩
        (.text "sí")
        = (.json 200 (.jobj [("es_planta", .jbool true)]), true)
    ∧ esplanta ⟨some (.jobj [("pregunta", .jstr "¿es una planta?")]), none, none, none⟩
        (.text "no")
        = (.json 200 (.jobj [("es_planta", .jbool false)]), true)
    ∧ esplanta ⟨some (.jobj [("pregunta", .jstr "¿es una planta?")]), none, none, none⟩
        (.text "maybe")
        = (.json 200 (.jobj [("es_planta", .jbool false), ("raw", .jstr "maybe")]),
           true) := by
  refine ⟨?_, ?_, ?_, rfl, rfl, rfl, rfl⟩
  · intro t h
    simp only [classify, h, if_true]
  · intro t h hno
    simp only [classify, h, hno]
    rfl
  · intro t h hno
    simp only [classify, h, hno]
    rfl

/-- C4 (witness): the first branch of the classification applied to the
text `"sí"`. -/
theorem c4_question_classification_witness :
    classify "sí" = .jobj [("es_planta", .jbool true)] :=
  c4_question_classification.1 "sí" (by decide)

/-- C5: whenever the `/especie` model reply carries no structured payload,
the handler answers 200 with the text-fallback body: the first two
substrings of 1–3 digits (optional trailing `%`) become `humedad_tierra`
and `humedad_ambiente` in order of appearance, each defaulting to 50 when
missing, `tipo` is always `"interior"`, and the note and raw text are
attached; on `"Needs about 40% soil and 60% ambient"` this gives exactly
40 and 60. -/
theorem c5_text_fallback :
    (∀ (v : JsonVal) (s content : String),
      especieResolve v = .ok s → s ≠ "" →
      especie (.ok v) (.text content)
        = (.json 200 (especieFallback content), true))
    ∧ especieFallback "Needs about 40% soil and 60% ambient"
        = .jobj [("humedad_tierra", .jint 40), ("humedad_ambiente", .jint 60),
            ("tipo", .jstr "interior"),
            ("note", .jstr "extracted from text fallback"),
            ("raw_text", .jstr "Needs about 40% soil and 60% ambient")]
    ∧ especieFallback "sin valores numericos"
        = .jobj [("humedad_tierra", .jint 50), ("humedad_ambiente", .jint 50),
            ("tipo", .jstr "interior"),
            ("note", .jstr "extracted from text fallback"),
            ("raw_text", .jstr "sin valores numericos")]
    ∧ especieFallback "cerca de 30"
        = .jobj [("humedad_tierra", .jint 30), ("humedad_ambiente", .jint 50),
            ("tipo", .jstr "interior"),
            ("note", .jstr "extracted from text fallback"),
            ("raw_text", .jstr "cerca de 30")] := by
  refine ⟨?_, rfl, rfl, rfl⟩
  intro v s content h hs
  simp only [especie, h]
  rw [if_neg hs]

/-- C5 (witness): the fallback branch of the handler on a concrete request
and concrete text. -/
theorem c5_text_fallback_witness :
    especie (.ok (.jobj [("especie", .jstr "rosa")]))
      (.text "Needs about 40% soil and 60% ambient")
      = (.json 200 (.jobj [("humedad_tierra", .jint 40),
          ("humedad_ambiente", .jint 60), ("tipo", .jstr "interior"),
          ("note", .jstr "extracted from text fallback"),
          ("raw_text", .jstr "Needs about 40% soil and 60% ambient")]), true) := by
  have h := (c5_text_fallback.1 (.jobj [("especie", .jstr "rosa")]) "rosa"
    "Needs about 40% soil and 60% ambient" rfl (by decide))
  rw [h]
  exact congrArg (fun b => (Outcome.json 200 b, true)) c5_text_fallback.2.1

/-- C6: a structured payload whose fields are already valid — humidity
integers within [0,100] and `tipo` one of the two literals — is returned
unchanged with status 200; in particular
`{"humedad_tierra":30,"humedad_ambiente":70,"tipo":"exterior"}` comes back
exactly as sent. -/
theorem c6_valid_payload_unchanged :
    (∀ (a b : Int) (t raw : String), 0 ≤ a → a ≤ 100 → 0 ≤ b → b ≤ 100 →
      (t = "interior" ∨ t = "exterior") →
      especieStructured raw (.ok (.jobj [("humedad_tierra", .jint a),
          ("humedad_ambiente", .jint b), ("tipo", .jstr t)]))
        = .json 200 (.jobj [("humedad_tierra", .jint a),
            ("humedad_ambiente", .jint b), ("tipo", .jstr t)]))
    ∧ especie (.ok (.jobj [("especie", .jstr "ficus")]))
        (.funcCall "args" (.ok (.jobj [("humedad_tierra", .jint 30),
          ("humedad_ambiente", .jint 70), ("tipo", .jstr "exterior")])))
        = (.json 200 (.jobj [("humedad_tierra", .jint 30),
            ("humedad_ambiente", .jint 70), ("tipo", .jstr "exterior")]), true) := by
  refine ⟨?_, rfl⟩
  intro a b t raw ha0 ha1 hb0 hb1 ht
  simp [especieStructured, especieArgs, objGet, pyInt,
    clampH_of_mem a ha0 ha1, clampH_of_mem b hb0 hb1, tipoNorm_keep t ht]

/-- C6 (witness): the general pass-through statement applied at the
documented example payload. -/
theorem c6_valid_payload_unchanged_witness :
    especieStructured "args" (.ok (.jobj [("humedad_tierra", .jint 30),
        ("humedad_ambiente", .jint 70), ("tipo", .jstr "exterior")]))
      = .json 200 (.jobj [("humedad_tierra", .jint 30),
          ("humedad_ambiente", .jint 70), ("tipo", .jstr "exterior")]) :=
  c6_valid_payload_unchanged.1 30 70 "exterior" "args" (by decide) (by decide)
    (by decide) (by decide) (Or.inr rfl)

/-- C7: when the required field resolves to the empty string — absent in
every accepted source, or blank after trimming — each endpoint returns 400
with exactly the documented error body, and the model client is never
invoked (the invocation flag is `false`). -/
theorem c7_missing_field_400 :
    (∀ (v : JsonVal) (reply : ModelReply), especieResolve v = .ok "" →
      especie (.ok v) reply = (.json 400 missingEspecie, false))
    ∧ (∀ (r : EsplantaRequest) (reply : TextReply), esplantaResolve r = .ok "" →
      esplanta r reply = (.json 400 missingPregunta, false)) := by
  constructor
  · intro v reply h
    simp [especie, h]
  · intro r reply h
    simp [esplanta, h]

/-- C7 (witness): an empty JSON object body on each endpoint. -/
theorem c7_missing_field_400_witness :
    especie (.ok (.jobj [])) (.text "texto")
      = (.json 400 missingEspecie, false)
    ∧ esplanta ⟨some (.jobj []), none, none, none⟩ (.text "sí")
      = (.json 400 missingPregunta, false) :=
  ⟨c7_missing_field_400.1 (.jobj []) (.text "texto") rfl,
   c7_missing_field_400.2 ⟨some (.jobj []), none, none, none⟩ (.text "sí") rfl⟩

/-- C8: a structured payload whose `arguments` string is malformed JSON is
answered with status 500, the error text `"failed parsing model
arguments"`, the exception detail, and the raw payload attached — never a
200 with substituted defaults. -/
theorem c8_malformed_arguments_500 :
    ∀ (v : JsonVal) (s raw e : String), especieResolve v = .ok s → s ≠ "" →
      especie (.ok v) (.funcCall raw (.error e))
        = (.json 500 (.jobj [("error", .jstr "failed parsing model arguments"),
            ("detail", .jstr e), ("raw", .jstr raw)]), true) := by
  intro v s raw e h hs
  simp only [especie, h]
  rw [if_neg hs]
  rfl

/-- C8 (witness): a concrete request whose function-call arguments fail
`json.loads`. -/
theorem c8_malformed_arguments_500_witness :
    especie (.ok (.jobj [("especie", .jstr "ficus")]))
      (.funcCall "not json" (.error "Expecting value: line 1 column 1 (char 0)"))
      = (.json 500 (.jobj [("error", .jstr "failed parsing model arguments"),
          ("detail", .jstr "Expecting value: line 1 column 1 (char 0)"),
          ("raw", .jstr "not json")]), true) :=
  c8_malformed_arguments_500 (.jobj [("especie", .jstr "ficus")]) "ficus"
    "not json" "Expecting value: line 1 column 1 (char 0)" rfl (by decide)

/-- C9: both handlers are deterministic in the request and the upstream
reply — they are pure functions of those two inputs, and no other state
enters them, so two runs with equal inputs produce equal responses
(status, body and invocation flag). -/
theorem c9_deterministic (b b' : BodyParse) (mr mr' : ModelReply)
    (q q' : EsplantaRequest) (tr tr' : TextReply)
    (h1 : b = b') (h2 : mr = mr') (h3 : q = q') (h4 : tr = tr') :
    especie b mr = especie b' mr' ∧ esplanta q tr = esplanta q' tr' := by
  subst h1; subst h2; subst h3; subst h4
  exact ⟨rfl, rfl⟩

/-- C9 (witness): determinism at a concrete request/reply pair. -/
theorem c9_deterministic_witness :
    especie (.ok (.jobj [("especie", .jstr "rosa")])) (.text "40% y 60%")
      = especie (.ok (.jobj [("especie", .jstr "rosa")])) (.text "40% y 60%")
    ∧ esplanta ⟨some (.jobj [("pregunta", .jstr "¿planta?")]), none, none, none⟩
        (.text "sí")
      = esplanta ⟨some (.jobj [("pregunta", .jstr "¿planta?")]), none, none, none⟩
        (.text "sí") :=
  c9_deterministic _ _ _ _ _ _ _ _ rfl rfl rfl rfl

/-- C10 (implicit): on the structured path a `humedad_tierra` of exactly
`-1` is indistinguishable from an absent field — both are emitted as 50 —
while every other negative value is clamped to 0. -/
theorem c10_sentinel_indistinguishable :
    (∀ (b : Int) (v : JsonVal) (raw : String),
      especieStructured raw (.ok (.jobj [("humedad_tierra", .jint (-1)),
          ("humedad_ambiente", .jint b), ("tipo", v)]))
        = especieStructured raw (.ok (.jobj [("humedad_ambiente", .jint b),
            ("tipo", v)])))
    ∧ (∀ (b : Int) (v : JsonVal) (raw : String),
      especieStructured raw (.ok (.jobj [("humedad_tierra", .jint (-1)),
          ("humedad_ambiente", .jint b), ("tipo", v)]))
        = .json 200 (.jobj [("humedad_tierra", .jint 50),
            ("humedad_ambiente", .jint (clampH b)),
            ("tipo", .jstr (tipoNorm v))]))
    ∧ (∀ (a b : Int) (v : JsonVal) (raw : String), a < 0 → a ≠ -1 →
      especieStructured raw (.ok (.jobj [("humedad_tierra", .jint a),
          ("humedad_ambiente", .jint b), ("tipo", v)]))
        = .json 200 (.jobj [("humedad_tierra", .jint 0),
            ("humedad_ambiente", .jint (clampH b)),
            ("tipo", .jstr (tipoNorm v))])) := by
  refine ⟨?_, ?_, ?_⟩
  · intro b v raw
    simp [especieStructured, especieArgs, objGet, pyInt]
  · intro b v raw
    simp [especieStructured, especieArgs, objGet, pyInt, clampH_neg_one]
  · intro a b v raw h0 h1
    simp [especieStructured, especieArgs, objGet, pyInt, clampH_neg a h0 h1]

/-- C10 (witness): `-5` is clamped to 0 while the sentinel yields 50. -/
theorem c10_sentinel_indistinguishable_witness :
    especieStructured "r" (.ok (.jobj [("humedad_tierra", .jint (-5)),
        ("humedad_ambiente", .jint 70), ("tipo", .jstr "exterior")]))
      = .json 200 (.jobj [("humedad_tierra", .jint 0),
          ("humedad_ambiente", .jint 70), ("tipo", .jstr "exterior")]) :=
  c10_sentinel_indistinguishable.2.2 (-5) 70 (.jstr "exterior") "r"
    (by decide) (by decide)
